import Mathlib

/-!
# Konqueror: URL dispatch in `UrlLoader` and the `--part` command line option

A shallow embedding of `src/urlloader.cpp` (the decision tree that chooses whether a
resource is embedded, opened, saved or executed) and of the request built by
`KonquerorApplication::createWindowsForUrlArguments` in `src/konqapplication.cpp`.

Modelling conventions

* `QString` is `String`, `QStringList` and `QVector` are `List`.
* A `QUrl` is reduced to its scheme and its path, the only components the dispatcher
  reads or writes; `setScheme` and `setPath` replace the component.
* Calls into Qt, KDE Frameworks and the rest of Konqueror (plugin lookup, settings,
  protocol tables, message boxes, `KonqMainWindow::openView`) are fields of an
  environment record `Env`: every theorem quantifies over all of them.  The answers
  of modal dialogs and of `openView` may depend on everything that happened before,
  so they take the event trace recorded so far.
* The loader carries a ghost field `trace` listing, in order, the dialogs shown and
  the action handlers entered; it is only appended to and never read by the
  embedded code except to be handed to the environment.
* `embedWithoutAskingToSave` keeps a function-local `static QStringList`; the model
  threads it as the field `s_mimeTypes`.
-/

namespace Konq

/-! ## Data model -/

/-- QUrl, reduced to scheme and path. -/
structure QUrl where
  scheme : String
  path : String
deriving DecidableEq, Repr

/-- QUrl::isLocalFile: the scheme is `file`. -/
def QUrl.isLocalFile (u : QUrl) : Bool := u.scheme == "file"

/-- QUrl::setScheme, for a syntactically valid scheme (protocol names are). -/
def QUrl.setScheme (u : QUrl) (scheme : String) : QUrl := { u with scheme := scheme }

/-- QUrl::setPath. -/
def QUrl.setPath (u : QUrl) (path : String) : QUrl := { u with path := path }

/-- QUrl::toLocalFile: the path of a local-file URL, the empty string otherwise. -/
def QUrl.toLocalFile (u : QUrl) : String := if u.isLocalFile then u.path else ""

/-- QString::endsWith(QChar). -/
def endsWithChar (s : String) (c : Char) : Bool := s.toList.getLast? == some c

/-- KPluginMetaData: plugin id, declared MIME types and validity. -/
structure KPluginMetaData where
  pluginId : String
  mimeTypes : List String
  isValid : Bool
deriving DecidableEq, Repr

/-- The default-constructed `KPluginMetaData()`: invalid, with an empty plugin id. -/
def KPluginMetaData.null : KPluginMetaData := { pluginId := "", mimeTypes := [], isValid := false }

/-- KService, reduced to what `serviceIsKonqueror` reads. -/
structure KService where
  desktopEntryName : String
  exec : String
deriving DecidableEq, Repr

/-- KParts::OpenUrlArguments: MIME type and metadata map. -/
structure OpenUrlArguments where
  mimeType : String
  metaData : List (String × String)
deriving DecidableEq, Repr

/-- KParts::BrowserArguments. -/
structure BrowserArguments where
  newTab : Bool
deriving DecidableEq, Repr

/-- KonqOpenURLRequest. -/
structure KonqOpenURLRequest where
  typedUrl : String
  serviceName : String
  suggestedFileName : String
  forceAutoEmbed : Bool
  tempFile : Bool
  args : OpenUrlArguments
  browserArgs : BrowserArguments
  filesToSelect : List QUrl
deriving DecidableEq, Repr

/-- KonqView, as far as the loader queries it. -/
structure KonqView where
  isLockedLocation : Bool
  supportsMimeType : String → Bool
  service : KPluginMetaData

/-- Enumeration UrlLoader::OpenUrlAction (the misspelling is the source's). -/
inductive OpenUrlAction
  | UnknwonAction
  | DoNothing
  | Save
  | Embed
  | Open
  | Execute
deriving DecidableEq, Repr

/-- Enumeration UrlLoader::OpenEmbedMode. -/
inductive OpenEmbedMode
  | Open
  | Embed
deriving DecidableEq, Repr

/-- KMessageBox::ButtonCode. -/
inductive ButtonCode
  | Ok
  | Cancel
  | Yes
  | No
  | Continue
deriving DecidableEq, Repr

/-- KParts::BrowserOpenOrSaveQuestion::Result. -/
inductive Result
  | Save
  | Open
  | Embed
  | Cancel
deriving DecidableEq, Repr

/-- What the user does with the open-or-save question dialog: presses Save, presses the
accepting button (labelled Open or Embed), or dismisses the dialog. -/
inductive DialogChoice
  | save
  | accept
  | reject
deriving DecidableEq, Repr

/-- KProtocolInfo::Type, the output type of a protocol. -/
inductive ProtocolType
  | T_STREAM
  | T_FILESYSTEM
  | T_NONE
  | T_ERROR
deriving DecidableEq, Repr

/-- Ghost events: dialogs shown to the user and handlers entered. -/
inductive Event
  | shownQuestionYesNoCancel
  | shownQuestionYesNo
  | shownOpenOrSave
  | shownEmbedOrSave
  | enterDecideOpenOrSave
  | enterEmbed
  | enterOpen
  | enterSave
  | enterExecute
  | enterDone
  | launchApplication
deriving DecidableEq, Repr

/-- Everything the loader asks of its surroundings. -/
structure Env where
  /-- Lookup `KPluginMetaData::findPluginById("kf5/parts", id)`. -/
  findPartById : String → KPluginMetaData
  /-- Lookup `KParts::PartLoader::partsForMimeType`. -/
  partsForMimeType : String → List KPluginMetaData
  /-- Lookup `KRun::isExecutable`. -/
  isExecutable : String → Bool
  /-- Setting `KonqFMSettings::settings()->shouldEmbed`. -/
  shouldEmbed : String → Bool
  /-- Lookup `KProtocolInfo::protocolClass`. -/
  protocolClass : String → String
  /-- Lookup `KProtocolInfo::isHelperProtocol`. -/
  isHelperProtocol : QUrl → Bool
  /-- Lookup `KApplicationTrader::preferredService`. -/
  preferredService : String → Option KService
  /-- Lookup `KProtocolManager::protocolForArchiveMimetype`. -/
  protocolForArchiveMimetype : String → String
  /-- Lookup `KProtocolManager::outputType`. -/
  outputType : QUrl → ProtocolType
  /-- Desktop file at the given local path: `KDesktopFile::hasLinkType`. -/
  hasLinkType : String → Bool
  /-- Desktop file at the given local path: `KDesktopFile::readUrl`. -/
  readUrl : String → String
  /-- Parsing constructor `QUrl(const QString &)`. -/
  urlFromString : String → QUrl
  /-- Lookup `QMimeDatabase::mimeTypeForFile(path).name()`. -/
  mimeTypeForFile : String → String
  /-- Answer of `KMessageBox::questionYesNoCancel`. -/
  questionYesNoCancel : List Event → ButtonCode
  /-- Answer of `KMessageBox::questionYesNo`. -/
  questionYesNo : List Event → ButtonCode
  /-- What the user does with the dialog run by `askOpenOrSave`. -/
  openOrSaveChoice : List Event → DialogChoice
  /-- What the user does with the dialog run by `askEmbedOrSave`. -/
  embedOrSaveChoice : List Event → DialogChoice
  /-- Value of `BrowserOpenOrSaveQuestion::selectedService` after the dialog. -/
  selectedService : List Event → Option KService
  /-- Outcome of `KonqMainWindow::openView`. -/
  openView : List Event → String → QUrl → Option KonqView → KonqOpenURLRequest → Bool
  /-- Outcome of `KonqMainWindow::refuseExecutingKonqueror`. -/
  refuseExecutingKonqueror : String → Bool

/-- The data members of `UrlLoader`, plus the static of `embedWithoutAskingToSave` and the
ghost trace. -/
structure UrlLoader where
  m_url : QUrl
  m_mimeType : String
  m_request : KonqOpenURLRequest
  m_view : Option KonqView
  m_trustedSource : Bool
  m_dontEmbed : Bool
  m_dontPassToWebEnginePart : Bool
  m_action : OpenUrlAction
  m_ready : Bool
  m_isAsync : Bool
  m_part : KPluginMetaData
  m_service : Option KService
  /-- Whether `m_openUrlJob` is non-null. -/
  m_openUrlJob : Bool
  /-- The `static QStringList s_mimeTypes` of `embedWithoutAskingToSave`. -/
  s_mimeTypes : List String
  /-- Ghost: dialogs shown and handlers entered so far, oldest first. -/
  trace : List Event

/-! ## KParts and Konqueror helpers outside `urlloader.cpp` -/

/-- BrowserOpenOrSaveQuestion::askOpenOrSave: KParts documents the result as Save, Open or
Cancel; the accepting button of this dialog means Open. -/
def askOpenOrSave (c : DialogChoice) : Result :=
  match c with
  | .save => .Save
  | .reject => .Cancel
  | .accept => .Open

/-- BrowserOpenOrSaveQuestion::askEmbedOrSave: KParts documents the result as Save, Embed or
Cancel; the accepting button of this dialog means Embed. -/
def askEmbedOrSave (c : DialogChoice) : Result :=
  match c with
  | .save => .Save
  | .reject => .Cancel
  | .accept => .Embed

/-- Modelled from the spec: `KonqUrl::hasKonqScheme` is declared in `konqurl.h`, which is
not among the sources; a konq URL is a URL whose scheme is `konq`. -/
def hasKonqScheme (u : QUrl) : Bool := u.scheme == "konq"

/-- The `preferredPart` helper: first part for the MIME type, or an invalid one. -/
def preferredPart (env : Env) (mimeType : String) : KPluginMetaData :=
  match env.partsForMimeType mimeType with
  | first :: _ => first
  | [] => KPluginMetaData.null

/-! ## `urlloader.cpp` -/

/-- UrlLoader::embedWithoutAskingToSave, given the current value of its static list; returns
the answer and the new value of the static list. -/
def UrlLoader.embedWithoutAskingToSave (env : Env) (s_mimeTypes : List String)
    (mimeType : String) : Bool × List String :=
  let s :=
    if s_mimeTypes.isEmpty then
      let names := ["kfmclient_html", "kfmclient_dir", "kfmclient_war"]
      let filled := names.foldl (fun acc name => acc ++ (env.findPartById name).mimeTypes)
        s_mimeTypes
      -- The user may want to save xml files rather than embedding them
      filled.erase "application/xml"
    else s_mimeTypes
  (s.contains mimeType, s)

/-- The constructor of `UrlLoader`: `defaults` supplies the members the constructor's
initialiser list leaves to their in-class defaults. -/
def UrlLoader.new (defaults : UrlLoader) (view : Option KonqView) (url : QUrl)
    (mimeType : String) (req : KonqOpenURLRequest) (trustedSource : Bool) (dontEmbed : Bool) :
    UrlLoader :=
  { defaults with
    m_url := url
    m_mimeType := mimeType
    m_request := req
    m_view := view
    m_trustedSource := trustedSource
    m_dontEmbed := dontEmbed
    m_dontPassToWebEnginePart :=
      req.args.metaData.any (fun kv => kv.1 == "DontSendToDefaultHTMLPart") }

/-- QChar::isSpace: the ASCII white space U+0009 to U+000D and U+0020, then U+0085, U+00A0
and the Unicode separators (categories Zs, Zl and Zp). -/
def isSpace (c : Char) : Bool :=
  let n := c.toNat
  n == 0x20 || (0x09 ≤ n && n ≤ 0x0D) || n == 0x85 || n == 0xA0 || n == 0x1680
    || (0x2000 ≤ n && n ≤ 0x200A) || n == 0x2028 || n == 0x2029 || n == 0x202F
    || n == 0x205F || n == 0x3000

/-- QString::trimmed: white space (`isSpace`) removed from both ends. -/
def trimmed (s : String) : String :=
  String.mk ((s.toList.dropWhile isSpace).reverse.dropWhile isSpace).reverse

/-- QString::startsWith. -/
def startsWith (s : String) (start : String) : Bool := start.toList.isPrefixOf s.toList

/-- UrlLoader::serviceIsKonqueror. -/
def UrlLoader.serviceIsKonqueror (service : Option KService) : Bool :=
  match service with
  | none => false
  | some s => s.desktopEntryName == "konqueror" || startsWith (trimmed s.exec) "kfmclient"

/-- UrlLoader::isViewLocked. -/
def UrlLoader.isViewLocked (l : UrlLoader) : Bool :=
  match l.m_view with
  | none => false
  | some v => v.isLockedLocation

/-- UrlLoader::shouldEmbedThis. -/
def UrlLoader.shouldEmbedThis (env : Env) (l : UrlLoader) : Bool :=
  !l.m_dontEmbed && (l.m_request.forceAutoEmbed || env.shouldEmbed l.m_mimeType)

/-- The `switch (ans)` of UrlLoader::askSaveOrOpen. -/
def UrlLoader.actionOfResult (ans : Result) : OpenUrlAction :=
  match ans with
  | .Save => .Save
  | .Open => .Open
  | .Embed => .Embed
  | _ => .DoNothing

/-- UrlLoader::askSaveOrOpen (a const member): the answer, and the dialog it showed. -/
def UrlLoader.askSaveOrOpen (env : Env) (l : UrlLoader) (mode : OpenEmbedMode) :
    (OpenUrlAction × Option KService) × List Event :=
  let ans := if mode = OpenEmbedMode.Open then askOpenOrSave (env.openOrSaveChoice l.trace)
    else askEmbedOrSave (env.embedOrSaveChoice l.trace)
  let shown := if mode = OpenEmbedMode.Open then Event.shownOpenOrSave else Event.shownEmbedOrSave
  ((UrlLoader.actionOfResult ans, env.selectedService (l.trace ++ [shown])), [shown])

/-- UrlLoader::decideExecute (a const member): the action, and the dialog it showed, if any. -/
def UrlLoader.decideExecute (env : Env) (l : UrlLoader) : OpenUrlAction × List Event :=
  if !l.m_url.isLocalFile || !env.isExecutable l.m_mimeType then
    (.UnknwonAction, [])
  else
    let canDisplay := !(env.partsForMimeType l.m_mimeType).isEmpty
    let code := if canDisplay then env.questionYesNoCancel l.trace else env.questionYesNo l.trace
    let shown := if canDisplay then Event.shownQuestionYesNoCancel else Event.shownQuestionYesNo
    match code with
    | .Yes => (.Execute, [shown])
    | .Cancel => (.DoNothing, [shown])
    | .No =>
      -- The "No" button actually corresponds to the "Cancel" action if the file can't be displayed
      (if canDisplay then .UnknwonAction else .DoNothing, [shown])
    | _ => (.UnknwonAction, [shown])

/-- UrlLoader::decideEmbedOrSave: the returned flag and the loader afterwards. The two
successive assignments to `m_part` are computed first (`part`), then stored. -/
def UrlLoader.decideEmbedOrSave (env : Env) (l : UrlLoader) : Bool × UrlLoader :=
  let webEngineName := "webenginepart"
  -- Use WebEnginePart for konq: URLs even if it's not the default html engine
  let part :=
    if hasKonqScheme l.m_url then env.findPartById webEngineName
    else
      let byNameOrPreferred :=
        if !l.m_request.serviceName.isEmpty then
          -- set by the "--part" command line argument: use it as is
          env.findPartById l.m_request.serviceName
        else
          -- otherwise, the preferred service for the MIME type
          preferredPart env l.m_mimeType
      match l.m_view with
      | some v =>
        if l.m_request.typedUrl.isEmpty && v.supportsMimeType l.m_mimeType then v.service
        else byNameOrPreferred
      | none => byNameOrPreferred
  -- Corner case: never hand the URL back to webenginepart when it asked not to get it
  let part :=
    if l.m_dontPassToWebEnginePart && part.pluginId == webEngineName then
      let parts := env.partsForMimeType l.m_mimeType
      match parts.find? (fun md => md.pluginId != webEngineName) with
      | some partToUse => partToUse
      | none => KPluginMetaData.null
    else part
  let l := { l with m_part := part }
  -- If we can't find a service, return false
  if !l.m_part.isValid then (false, l)
  else
    let e := UrlLoader.embedWithoutAskingToSave env l.s_mimeTypes l.m_mimeType
    let l := { l with s_mimeTypes := e.2 }
    -- Ask whether to save or embed, except for web pages and local files
    let l :=
      if e.1 || l.m_url.isLocalFile then { l with m_action := OpenUrlAction.Embed }
      else
        let a := UrlLoader.askSaveOrOpen env l OpenEmbedMode.Embed
        { l with m_action := a.1.1, trace := l.trace ++ a.2 }
    let l :=
      if l.m_action = OpenUrlAction.Embed then
        { l with m_request := { l.m_request with serviceName := l.m_part.pluginId } }
      else l
    (true, { l with m_ready := l.m_part.isValid || l.m_action != OpenUrlAction.Embed })

/-- UrlLoader::decideOpenOrSave. -/
def UrlLoader.decideOpenOrSave (env : Env) (l : UrlLoader) : UrlLoader :=
  let l := { l with m_ready := true, trace := l.trace ++ [Event.enterDecideOpenOrSave] }
  let protClass := env.protocolClass l.m_url.scheme
  let isLocal := l.m_url.isLocalFile
  let alwaysOpen := isLocal || protClass == ":local" || env.isHelperProtocol l.m_url
  let answerWithService : (OpenUrlAction × Option KService) × List Event :=
    if !alwaysOpen then UrlLoader.askSaveOrOpen env l OpenEmbedMode.Open
    else ((OpenUrlAction.Open, none), [])
  let l := { l with m_action := answerWithService.1.1, m_service := answerWithService.1.2,
                    trace := l.trace ++ answerWithService.2 }
  if l.m_action = OpenUrlAction.Open && l.m_service.isNone then
    { l with m_service := env.preferredService l.m_mimeType }
  else l

/-- UrlLoader::decideAction. -/
def UrlLoader.decideAction (env : Env) (l : UrlLoader) : UrlLoader :=
  let d := UrlLoader.decideExecute env l
  let l := { l with m_action := d.1, trace := l.trace ++ d.2 }
  match l.m_action with
  | .Execute => { l with m_ready := true }
  | .DoNothing => { l with m_ready := true }
  | _ =>
    if UrlLoader.isViewLocked l || UrlLoader.shouldEmbedThis env l then
      let r := UrlLoader.decideEmbedOrSave env l
      if r.1 then r.2 else UrlLoader.decideOpenOrSave env r.2
    else UrlLoader.decideOpenOrSave env l

/-- UrlLoader::done (without a job): aligns the request's MIME type and signals completion. -/
def UrlLoader.done (l : UrlLoader) : UrlLoader :=
  { l with
    m_request := { l.m_request with args := { l.m_request.args with mimeType := l.m_mimeType } }
    trace := l.trace ++ [Event.enterDone] }

/-- UrlLoader::open: launches the application unless Konqueror would launch itself; the
launcher job finishes asynchronously. -/
def UrlLoader.open (env : Env) (l : UrlLoader) : UrlLoader :=
  let l := { l with trace := l.trace ++ [Event.enterOpen] }
  if l.m_service.isSome && UrlLoader.serviceIsKonqueror l.m_service
      && env.refuseExecutingKonqueror l.m_mimeType then l
  else { l with trace := l.trace ++ [Event.launchApplication] }

/-- UrlLoader::save: shows the file dialog; the copy job runs asynchronously. -/
def UrlLoader.save (l : UrlLoader) : UrlLoader :=
  { l with trace := l.trace ++ [Event.enterSave] }

/-- UrlLoader::execute: starts the open-URL job, or resumes it when it already exists. -/
def UrlLoader.execute (l : UrlLoader) : UrlLoader :=
  let l := { l with trace := l.trace ++ [Event.enterExecute] }
  if !l.m_openUrlJob then { l with m_openUrlJob := true } else l

/-- UrlLoader::embed, with the call back into `performAction` passed as `performAction`. -/
def UrlLoader.embed (env : Env) (performAction : UrlLoader → Option UrlLoader)
    (l : UrlLoader) : Option UrlLoader :=
  let l := { l with trace := l.trace ++ [Event.enterEmbed] }
  let embedded := env.openView l.trace l.m_mimeType l.m_url l.m_view l.m_request
  if embedded then some (UrlLoader.done l)
  else performAction (UrlLoader.decideOpenOrSave env l)

/-- UrlLoader::performAction. `performAction` and `embed` call each other; the first
argument bounds the depth of that recursion, and `none` means the bound was reached. -/
def UrlLoader.performAction (env : Env) : Nat → UrlLoader → Option UrlLoader
  | 0, _ => none
  | fuel + 1, l =>
    match l.m_action with
    | .Embed => UrlLoader.embed env (UrlLoader.performAction env fuel) l
    | .Open => some (UrlLoader.open env l)
    | .Execute => some (UrlLoader.execute l)
    | .Save => some (UrlLoader.save l)
    | .DoNothing => some (UrlLoader.done l)
    | .UnknwonAction => some (UrlLoader.done l) -- This should never happen

/-- UrlLoader::detectSettingsForLocalFiles. -/
def UrlLoader.detectSettingsForLocalFiles (env : Env) (l : UrlLoader) : UrlLoader :=
  if !l.m_url.isLocalFile then l
  else if !l.m_mimeType.isEmpty then
    -- Generic mechanism for redirecting to tar:/<path>/ when clicking on a tar file, etc.
    let protocol := env.protocolForArchiveMimetype l.m_mimeType
    let l :=
      if !protocol.isEmpty && env.shouldEmbed l.m_mimeType then
        let l := { l with m_url := l.m_url.setScheme protocol }
        if l.m_mimeType == "application/x-webarchive" then
          { l with m_url := l.m_url.setPath (l.m_url.path ++ "/index.html"),
                   m_mimeType := "text/html" }
        else if env.outputType l.m_url = ProtocolType.T_FILESYSTEM then
          let l :=
            if !endsWithChar l.m_url.path '/' then
              { l with m_url := l.m_url.setPath (l.m_url.path ++ "/") }
            else l
          { l with m_mimeType := "inode/directory" }
        else { l with m_mimeType := "" }
      else l
    -- Redirect to the url in Type=Link desktop files
    if l.m_mimeType == "application/x-desktop" then
      if env.hasLinkType l.m_url.toLocalFile then
        { l with m_url := env.urlFromString (env.readUrl l.m_url.toLocalFile), m_mimeType := "" }
      else l
    else l
  else
    { l with m_mimeType := env.mimeTypeForFile l.m_url.path }

/-! ## `konqapplication.cpp` -/

/-- QCommandLineParser after parsing: which options are set, and their values. -/
structure QCommandLineParser where
  isSet : String → Bool
  value : String → String

/-- KonqMainWindow, as an opaque handle. -/
structure KonqMainWindow where
  id : Nat
deriving DecidableEq, Repr

/-- Everything `createWindowsForUrlArguments` asks of its surroundings. -/
structure AppEnv where
  /-- Conversion `QUrl::fromUserInput(arg, workingDirectory)`. -/
  fromUserInput : String → String → QUrl
  /-- Test `QFile::exists`. -/
  fileExists : String → Bool
  /-- Filter `KonqMisc::konqFilteredURL(nullptr, arg)`. -/
  konqFilteredURL : String → QUrl
  /-- Conversion `url.adjusted(QUrl::RemoveFilename)`. -/
  removeFilename : QUrl → QUrl
  /-- Factory `KonqMainWindowFactory::createNewWindow(url, req)`. -/
  createNewWindow : QUrl → KonqOpenURLRequest → Option KonqMainWindow

/-- What one run of `createWindowsForUrlArguments` did. -/
structure WindowCreation where
  /-- The returned pair: main window (if any) and exit code. -/
  result : Option KonqMainWindow × Int
  /-- The URL handed to `createNewWindow`. -/
  firstUrl : QUrl
  /-- The request handed to `createNewWindow`. -/
  req : KonqOpenURLRequest
  /-- The URLs handed to `openMultiURL`, if it was called. -/
  tabs : Option (List QUrl)

/-- The lambda `urlFromArg` of `createWindowsForUrlArguments`. -/
def urlFromArg (app : AppEnv) (workingDirectory : String) (arg : String) : QUrl :=
  let url := app.fromUserInput arg workingDirectory
  if url.isLocalFile && app.fileExists url.toLocalFile then url
  else app.konqFilteredURL arg

/-- KonquerorApplication::createWindowsForUrlArguments. `urlargs0` and `req0` are the
default-constructed `KParts::OpenUrlArguments` and `KonqOpenURLRequest`; the result is
`none` when `takeFirst` meets an empty list. -/
def createWindowsForUrlArguments (app : AppEnv) (parser : QCommandLineParser)
    (urlargs0 : OpenUrlArguments) (req0 : KonqOpenURLRequest)
    (args : List String) (workingDirectory : String) : Option WindowCreation :=
  let urlList := args.map (urlFromArg app workingDirectory)
  let selecting := parser.isSet "select"
  -- all distinct directories of the files, one tab for each
  let dirs := urlList.foldl
    (fun (dirs : List QUrl) url =>
      let dir := app.removeFilename url
      if !dirs.contains dir then dirs ++ [dir] else dirs) []
  let filesToSelect := if selecting then urlList else []
  let urlList := if selecting then dirs else urlList
  match urlList with
  | [] => none
  | firstUrl :: urlList =>
    let urlargs :=
      if parser.isSet "mimetype" then { urlargs0 with mimeType := parser.value "mimetype" }
      else urlargs0
    let req := { req0 with
      args := urlargs
      filesToSelect := filesToSelect
      tempFile := parser.isSet "tempfile"
      serviceName := parser.value "part" }
    match app.createNewWindow firstUrl req with
    | none => some { result := (none, 1), firstUrl := firstUrl, req := req, tabs := none }
    | some mainwin =>
      some { result := (some mainwin, 0), firstUrl := firstUrl, req := req,
             tabs := if !urlList.isEmpty then some urlList else none }

/-! ## Concrete environments used to evaluate the code -/

/-- The part `webenginepart`. -/
def webEnginePart : KPluginMetaData :=
  { pluginId := "webenginepart", mimeTypes := ["text/html", "application/xml"], isValid := true }

/-- The part `khtmlpart`. -/
def khtmlPart : KPluginMetaData :=
  { pluginId := "khtmlpart", mimeTypes := ["text/html"], isValid := true }

/-- An environment with two HTML parts, `webenginepart` preferred, in which nothing is
executable, nothing is configured for embedding, every dialog is dismissed and `openView`
fails. -/
def sampleEnv : Env :=
  { findPartById := fun id =>
      if id = "webenginepart" then webEnginePart
      else if id = "khtmlpart" then khtmlPart
      else KPluginMetaData.null
    partsForMimeType := fun m => if m = "text/html" then [webEnginePart, khtmlPart] else []
    isExecutable := fun _ => false
    shouldEmbed := fun _ => false
    protocolClass := fun _ => ":internet"
    isHelperProtocol := fun _ => false
    preferredService := fun _ => none
    protocolForArchiveMimetype := fun _ => ""
    outputType := fun _ => ProtocolType.T_NONE
    hasLinkType := fun _ => false
    readUrl := fun _ => ""
    urlFromString := fun s => { scheme := "", path := s }
    mimeTypeForFile := fun _ => "application/octet-stream"
    questionYesNoCancel := fun _ => ButtonCode.Cancel
    questionYesNo := fun _ => ButtonCode.Cancel
    openOrSaveChoice := fun _ => DialogChoice.reject
    embedOrSaveChoice := fun _ => DialogChoice.reject
    selectedService := fun _ => none
    openView := fun _ _ _ _ _ => false
    refuseExecutingKonqueror := fun _ => false }

/-- A request whose metadata carries the key `DontSendToDefaultHTMLPart`. -/
def dontSendRequest : KonqOpenURLRequest :=
  { typedUrl := "", serviceName := "", suggestedFileName := "", forceAutoEmbed := false,
    tempFile := false,
    args := { mimeType := "", metaData := [("DontSendToDefaultHTMLPart", "")] },
    browserArgs := { newTab := false }, filesToSelect := [] }

/-- A request naming the part `webenginepart` whose metadata carries the key
`DontSendToDefaultHTMLPart`. -/
def dontSendNamedRequest : KonqOpenURLRequest :=
  { dontSendRequest with serviceName := "webenginepart" }

/-- A default-constructed request. -/
def emptyRequest : KonqOpenURLRequest :=
  { typedUrl := "", serviceName := "", suggestedFileName := "", forceAutoEmbed := false,
    tempFile := false, args := { mimeType := "", metaData := [] },
    browserArgs := { newTab := false }, filesToSelect := [] }

/-- A loader for `url` and `mimeType` with request `req`, no view and nothing decided yet. -/
def sampleLoader (url : QUrl) (mimeType : String) (req : KonqOpenURLRequest) : UrlLoader :=
  UrlLoader.new
    { m_url := url, m_mimeType := mimeType, m_request := req, m_view := none,
      m_trustedSource := false, m_dontEmbed := false, m_dontPassToWebEnginePart := false,
      m_action := OpenUrlAction.UnknwonAction, m_ready := false, m_isAsync := false,
      m_part := KPluginMetaData.null, m_service := none, m_openUrlJob := false,
      s_mimeTypes := [], trace := [] }
    none url mimeType req false false

/-! ## Auxiliary definitions for the statements -/

/-- The condition under which `decideEmbedOrSave` takes the part of the current view:
`m_view && m_request.typedUrl.isEmpty() && m_view->supportsMimeType(m_mimeType)`. -/
def viewPartUsed (l : UrlLoader) : Bool :=
  match l.m_view with
  | some v => l.m_request.typedUrl.isEmpty && v.supportsMimeType l.m_mimeType
  | none => false

/-- The first part for the MIME type whose plugin id is not `webenginepart`, or the invalid
part: what the webenginepart guard of `decideEmbedOrSave` substitutes. -/
def firstOtherPart (env : Env) (mimeType : String) : KPluginMetaData :=
  match (env.partsForMimeType mimeType).find? (fun md => md.pluginId != "webenginepart") with
  | some partToUse => partToUse
  | none => KPluginMetaData.null

/-- The part `decideEmbedOrSave` selects before the webenginepart guard. -/
def selectedPart (env : Env) (l : UrlLoader) : KPluginMetaData :=
  if hasKonqScheme l.m_url then env.findPartById "webenginepart"
  else
    let byNameOrPreferred :=
      if !l.m_request.serviceName.isEmpty then env.findPartById l.m_request.serviceName
      else preferredPart env l.m_mimeType
    match l.m_view with
    | some v =>
      if l.m_request.typedUrl.isEmpty && v.supportsMimeType l.m_mimeType then v.service
      else byNameOrPreferred
    | none => byNameOrPreferred

/-- The part `decideEmbedOrSave` ends with: the selected one after the webenginepart guard. -/
def finalPart (env : Env) (l : UrlLoader) : KPluginMetaData :=
  if l.m_dontPassToWebEnginePart && (selectedPart env l).pluginId == "webenginepart" then
    firstOtherPart env l.m_mimeType
  else selectedPart env l

/-- What `decideEmbedOrSave` does once `m_part` is settled. -/
def embedOrSaveWith (env : Env) (l : UrlLoader) (part : KPluginMetaData) : Bool × UrlLoader :=
  let l := { l with m_part := part }
  if !l.m_part.isValid then (false, l)
  else
    let e := UrlLoader.embedWithoutAskingToSave env l.s_mimeTypes l.m_mimeType
    let l := { l with s_mimeTypes := e.2 }
    let l :=
      if e.1 || l.m_url.isLocalFile then { l with m_action := OpenUrlAction.Embed }
      else
        let a := UrlLoader.askSaveOrOpen env l OpenEmbedMode.Embed
        { l with m_action := a.1.1, trace := l.trace ++ a.2 }
    let l :=
      if l.m_action = OpenUrlAction.Embed then
        { l with m_request := { l.m_request with serviceName := l.m_part.pluginId } }
      else l
    (true, { l with m_ready := l.m_part.isValid || l.m_action != OpenUrlAction.Embed })

/-- The MIME types the three parts `kfmclient_html`, `kfmclient_dir` and `kfmclient_war`
declare, in the order `embedWithoutAskingToSave` collects them. -/
def declaredMimeTypes (env : Env) : List String :=
  (env.findPartById "kfmclient_html").mimeTypes ++ (env.findPartById "kfmclient_dir").mimeTypes
    ++ (env.findPartById "kfmclient_war").mimeTypes

/-- An environment in which both `kfmclient_html` and `kfmclient_war` declare
`application/xml`. -/
def xmlTwiceEnv : Env :=
  { sampleEnv with
    findPartById := fun id =>
      if id = "kfmclient_html" then
        { pluginId := "kfmclient_html",
          mimeTypes := ["text/html", "application/xhtml+xml", "application/xml"],
          isValid := true }
      else if id = "kfmclient_dir" then
        { pluginId := "kfmclient_dir", mimeTypes := ["inode/directory"], isValid := true }
      else if id = "kfmclient_war" then
        { pluginId := "kfmclient_war",
          mimeTypes := ["application/x-webarchive", "application/xml"], isValid := true }
      else KPluginMetaData.null }

/-- The environment `sampleEnv` with `khtmlpart` preferred over `webenginepart`. -/
def khtmlFirstEnv : Env :=
  { sampleEnv with
    partsForMimeType := fun m => if m = "text/html" then [khtmlPart, webEnginePart] else [] }

/-- The environment `sampleEnv` with `webenginepart` as the only part for `text/html`. -/
def webEngineOnlyEnv : Env :=
  { sampleEnv with
    partsForMimeType := fun m => if m = "text/html" then [webEnginePart] else [] }

/-- A view showing `khtmlpart`, which supports every MIME type. -/
def khtmlView : KonqView :=
  { isLockedLocation := false, supportsMimeType := fun _ => true, service := khtmlPart }

/-- A loader for `konq:blank` in the view `khtmlView`, with a request naming `khtmlpart`
and no typed URL. -/
def konqViewLoader : UrlLoader :=
  { sampleLoader { scheme := "konq", path := "blank" } "text/html"
      { emptyRequest with serviceName := "khtmlpart" } with
    m_view := some khtmlView }

/-- An environment in which `zip` is the archive protocol of `application/zip`, a file
system protocol, and ZIP files are configured for embedding. -/
def zipEnv : Env :=
  { sampleEnv with
    protocolForArchiveMimetype := fun m => if m = "application/zip" then "zip" else ""
    shouldEmbed := fun m => m = "application/zip"
    outputType := fun u => if u.scheme = "zip" then ProtocolType.T_FILESYSTEM
      else ProtocolType.T_NONE }

/-- A command line `--part khtmlpart URL`. -/
def partParser : QCommandLineParser :=
  { isSet := fun name => name = "part"
    value := fun name => if name = "part" then "khtmlpart" else "" }

/-- An application environment in which every argument is a remote URL and window creation
succeeds. -/
def sampleApp : AppEnv :=
  { fromUserInput := fun arg _ => { scheme := "https", path := arg }
    fileExists := fun _ => false
    konqFilteredURL := fun arg => { scheme := "https", path := arg }
    removeFilename := fun url => url
    createNewWindow := fun _ _ => some { id := 1 } }

/-- Whether `embed` fails on this loader: the action is Embed and `openView` reports that
the view could not be opened. -/
def embedFails (env : Env) (l : UrlLoader) : Bool :=
  l.m_action = OpenUrlAction.Embed &&
    !env.openView (l.trace ++ [Event.enterEmbed]) l.m_mimeType l.m_url l.m_view l.m_request


/-! ## Facts about the dialogs and the decision functions -/

theorem askOpenOrSave_ne_embed (c : DialogChoice) : askOpenOrSave c ≠ Result.Embed := by
  cases c <;> simp [askOpenOrSave]

theorem actionOfResult_ne_unknown (r : Result) :
    UrlLoader.actionOfResult r ≠ OpenUrlAction.UnknwonAction := by
  cases r <;> simp [UrlLoader.actionOfResult]

theorem askSaveOrOpen_ne_unknown (env : Env) (l : UrlLoader) (mode : OpenEmbedMode) :
    (UrlLoader.askSaveOrOpen env l mode).1.1 ≠ OpenUrlAction.UnknwonAction := by
  simp only [UrlLoader.askSaveOrOpen]
  exact actionOfResult_ne_unknown _

theorem askSaveOrOpen_open_cases (env : Env) (l : UrlLoader) :
    (UrlLoader.askSaveOrOpen env l OpenEmbedMode.Open).1.1 = OpenUrlAction.Save ∨
    (UrlLoader.askSaveOrOpen env l OpenEmbedMode.Open).1.1 = OpenUrlAction.Open ∨
    (UrlLoader.askSaveOrOpen env l OpenEmbedMode.Open).1.1 = OpenUrlAction.DoNothing := by
  simp only [UrlLoader.askSaveOrOpen, if_true]
  cases env.openOrSaveChoice l.trace <;> simp [askOpenOrSave, UrlLoader.actionOfResult]

theorem decideOpenOrSave_action (env : Env) (l : UrlLoader) :
    (UrlLoader.decideOpenOrSave env l).m_action = OpenUrlAction.Save ∨
    (UrlLoader.decideOpenOrSave env l).m_action = OpenUrlAction.Open ∨
    (UrlLoader.decideOpenOrSave env l).m_action = OpenUrlAction.DoNothing := by
  unfold UrlLoader.decideOpenOrSave
  simp only
  split <;> split <;> simp <;> exact askSaveOrOpen_open_cases env _

theorem decideOpenOrSave_ne_unknown (env : Env) (l : UrlLoader) :
    (UrlLoader.decideOpenOrSave env l).m_action ≠ OpenUrlAction.UnknwonAction := by
  rcases decideOpenOrSave_action env l with h | h | h <;> simp [h]

theorem decideOpenOrSave_ne_embed (env : Env) (l : UrlLoader) :
    (UrlLoader.decideOpenOrSave env l).m_action ≠ OpenUrlAction.Embed := by
  rcases decideOpenOrSave_action env l with h | h | h <;> simp [h]

theorem decideEmbedOrSave_eq (env : Env) (l : UrlLoader) :
    UrlLoader.decideEmbedOrSave env l = embedOrSaveWith env l (finalPart env l) := rfl

theorem embedOrSaveWith_part (env : Env) (l : UrlLoader) (part : KPluginMetaData) :
    (embedOrSaveWith env l part).2.m_part = part := by
  unfold embedOrSaveWith
  simp only
  split
  · rfl
  · split <;> split <;> rfl

theorem embedOrSaveWith_ret (env : Env) (l : UrlLoader) (part : KPluginMetaData) :
    (embedOrSaveWith env l part).1 = part.isValid := by
  unfold embedOrSaveWith
  cases h : part.isValid <;> simp [h]

theorem embedOrSaveWith_action (env : Env) (l : UrlLoader) (part : KPluginMetaData)
    (h : part.isValid = true) :
    (embedOrSaveWith env l part).2.m_action =
      if (UrlLoader.embedWithoutAskingToSave env l.s_mimeTypes l.m_mimeType).1
          || l.m_url.isLocalFile then OpenUrlAction.Embed
      else UrlLoader.actionOfResult (askEmbedOrSave (env.embedOrSaveChoice l.trace)) := by
  unfold embedOrSaveWith
  simp only [h, Bool.not_true, Bool.false_eq_true, if_false]
  split
  · simp
  · simp only [UrlLoader.askSaveOrOpen, reduceCtorEq, if_false]
    split <;> rfl

theorem decideEmbedOrSave_true_ne_unknown (env : Env) (l : UrlLoader)
    (h : (UrlLoader.decideEmbedOrSave env l).1 = true) :
    (UrlLoader.decideEmbedOrSave env l).2.m_action ≠ OpenUrlAction.UnknwonAction := by
  rw [decideEmbedOrSave_eq] at h ⊢
  rw [embedOrSaveWith_ret] at h
  rw [embedOrSaveWith_action env l _ h]
  split
  · simp
  · exact actionOfResult_ne_unknown _

/-- C1. After `decideAction` the action is one of Embed, Open, Save, Execute or DoNothing and
never UnknwonAction; the same holds for the action `decideOpenOrSave` leaves behind when
`embed` falls back to it, so `performAction` does not take its UnknwonAction case. -/
theorem decideAction_action_known (env : Env) (l : UrlLoader) :
    ((UrlLoader.decideAction env l).m_action = OpenUrlAction.Embed ∨
     (UrlLoader.decideAction env l).m_action = OpenUrlAction.Open ∨
     (UrlLoader.decideAction env l).m_action = OpenUrlAction.Save ∨
     (UrlLoader.decideAction env l).m_action = OpenUrlAction.Execute ∨
     (UrlLoader.decideAction env l).m_action = OpenUrlAction.DoNothing) ∧
    (UrlLoader.decideAction env l).m_action ≠ OpenUrlAction.UnknwonAction ∧
    (∀ l2 : UrlLoader,
      (UrlLoader.decideOpenOrSave env l2).m_action ≠ OpenUrlAction.UnknwonAction) := by
  have key : (UrlLoader.decideAction env l).m_action ≠ OpenUrlAction.UnknwonAction := by
    unfold UrlLoader.decideAction
    simp only
    split
    · rename_i h; simp [h]
    · rename_i h; simp [h]
    · split
      · split
        · rename_i h; exact decideEmbedOrSave_true_ne_unknown _ _ h
        · exact decideOpenOrSave_ne_unknown _ _
      · exact decideOpenOrSave_ne_unknown _ _
  refine ⟨?_, key, fun l2 => decideOpenOrSave_ne_unknown env l2⟩
  cases h : (UrlLoader.decideAction env l).m_action <;> simp_all

/-- C2. `decideExecute` answers Execute only for a local file of an executable MIME type
whose execution the user confirmed with Yes; for a URL that is not a local file, and for a
MIME type that is not executable, it answers UnknwonAction and shows no dialog. -/
theorem decideExecute_only_local_executable (env : Env) (l : UrlLoader) :
    ((UrlLoader.decideExecute env l).1 = OpenUrlAction.Execute →
      l.m_url.isLocalFile = true ∧ env.isExecutable l.m_mimeType = true ∧
      (if (env.partsForMimeType l.m_mimeType).isEmpty then env.questionYesNo l.trace
        else env.questionYesNoCancel l.trace) = ButtonCode.Yes) ∧
    (l.m_url.isLocalFile = false →
      UrlLoader.decideExecute env l = (OpenUrlAction.UnknwonAction, [])) ∧
    (env.isExecutable l.m_mimeType = false →
      UrlLoader.decideExecute env l = (OpenUrlAction.UnknwonAction, [])) := by
  unfold UrlLoader.decideExecute
  refine ⟨?_, ?_, ?_⟩
  · cases h1 : l.m_url.isLocalFile <;> cases h2 : env.isExecutable l.m_mimeType <;>
      cases h3 : (env.partsForMimeType l.m_mimeType).isEmpty <;> simp [h1, h2, h3]
    · cases h4 : env.questionYesNoCancel l.trace <;> simp [h4]
    · cases h4 : env.questionYesNo l.trace <;> simp [h4]
  · intro h; simp [h]
  · intro h; simp [h]

theorem embedOrSaveWith_embed (env : Env) (l : UrlLoader) (part : KPluginMetaData)
    (hv : part.isValid = true)
    (h : ((UrlLoader.embedWithoutAskingToSave env l.s_mimeTypes l.m_mimeType).1
          || l.m_url.isLocalFile) = true) :
    (embedOrSaveWith env l part).2.trace = l.trace ∧
    (embedOrSaveWith env l part).2.m_request.serviceName = part.pluginId := by
  unfold embedOrSaveWith
  simp only [hv, Bool.not_true, Bool.false_eq_true, if_false, h, if_true]
  simp

/-- C3. When `decideEmbedOrSave` ends with a valid part and either
`embedWithoutAskingToSave(m_mimeType)` holds or the URL is a local file, no dialog is shown,
the action becomes Embed, the request's service name becomes the plugin id of the part, and
the function returns true. -/
theorem decideEmbedOrSave_embeds_without_asking (env : Env) (l : UrlLoader)
    (hvalid : (UrlLoader.decideEmbedOrSave env l).2.m_part.isValid = true)
    (hweb : (UrlLoader.embedWithoutAskingToSave env l.s_mimeTypes l.m_mimeType).1 = true ∨
      l.m_url.isLocalFile = true) :
    (UrlLoader.decideEmbedOrSave env l).2.trace = l.trace ∧
    (UrlLoader.decideEmbedOrSave env l).2.m_action = OpenUrlAction.Embed ∧
    (UrlLoader.decideEmbedOrSave env l).2.m_request.serviceName =
      (UrlLoader.decideEmbedOrSave env l).2.m_part.pluginId ∧
    (UrlLoader.decideEmbedOrSave env l).1 = true := by
  rw [decideEmbedOrSave_eq] at hvalid ⊢
  rw [embedOrSaveWith_part] at hvalid
  have h : ((UrlLoader.embedWithoutAskingToSave env l.s_mimeTypes l.m_mimeType).1
      || l.m_url.isLocalFile) = true := by
    rcases hweb with h | h <;> simp [h]
  have he := embedOrSaveWith_embed env l _ hvalid h
  refine ⟨he.1, ?_, ?_, ?_⟩
  · rw [embedOrSaveWith_action env l _ hvalid, if_pos h]
  · rw [he.2, embedOrSaveWith_part]
  · rw [embedOrSaveWith_ret, hvalid]

/-- Witness for C3: a local HTML file with `webenginepart` preferred. -/
theorem decideEmbedOrSave_embeds_without_asking_witness :
    (UrlLoader.decideEmbedOrSave sampleEnv
        (sampleLoader { scheme := "file", path := "/home/u/index.html" } "text/html"
          emptyRequest)).2.m_action = OpenUrlAction.Embed ∧
    (UrlLoader.decideEmbedOrSave sampleEnv
        (sampleLoader { scheme := "file", path := "/home/u/index.html" } "text/html"
          emptyRequest)).2.m_request.serviceName = "webenginepart" :=
  have h := decideEmbedOrSave_embeds_without_asking sampleEnv
    (sampleLoader { scheme := "file", path := "/home/u/index.html" } "text/html" emptyRequest)
    (by decide) (Or.inr (by decide))
  ⟨h.2.1, by decide⟩

theorem firstOtherPart_cases (env : Env) (mimeType : String) :
    (firstOtherPart env mimeType).pluginId ≠ "webenginepart" ∨
    firstOtherPart env mimeType = KPluginMetaData.null := by
  unfold firstOtherPart
  split
  · rename_i p hp
    left
    have := List.find?_some hp
    simpa using this
  · right; rfl

theorem finalPart_of_guard (env : Env) (l : UrlLoader)
    (h : l.m_dontPassToWebEnginePart = true)
    (hid : (selectedPart env l).pluginId = "webenginepart") :
    finalPart env l = firstOtherPart env l.m_mimeType := by
  simp [finalPart, h, hid]

theorem finalPart_of_no_guard (env : Env) (l : UrlLoader)
    (h : l.m_dontPassToWebEnginePart = false ∨ (selectedPart env l).pluginId ≠ "webenginepart") :
    finalPart env l = selectedPart env l := by
  rcases h with h | h <;> simp [finalPart, h]

/-- C4. With `m_dontPassToWebEnginePart` set (the constructor sets it exactly when the request
metadata contains `DontSendToDefaultHTMLPart`), `decideEmbedOrSave` ends either with a part
whose plugin id is not `webenginepart`, or with an invalid part and the result false. -/
theorem decideEmbedOrSave_avoids_webenginepart (env : Env) (l : UrlLoader)
    (h : l.m_dontPassToWebEnginePart = true) :
    ((UrlLoader.decideEmbedOrSave env l).2.m_part.pluginId ≠ "webenginepart" ∨
      ((UrlLoader.decideEmbedOrSave env l).2.m_part.isValid = false ∧
       (UrlLoader.decideEmbedOrSave env l).1 = false)) ∧
    (∀ (defaults : UrlLoader) (view : Option KonqView) (url : QUrl) (mimeType : String)
        (req : KonqOpenURLRequest) (trustedSource dontEmbed : Bool),
      (UrlLoader.new defaults view url mimeType req trustedSource dontEmbed).m_dontPassToWebEnginePart
        = req.args.metaData.any (fun kv => kv.1 == "DontSendToDefaultHTMLPart")) := by
  refine ⟨?_, fun _ _ _ _ _ _ _ => rfl⟩
  rw [decideEmbedOrSave_eq, embedOrSaveWith_part, embedOrSaveWith_ret]
  by_cases hid : (selectedPart env l).pluginId = "webenginepart"
  · rw [finalPart_of_guard env l h hid]
    rcases firstOtherPart_cases env l.m_mimeType with h1 | h1
    · exact Or.inl h1
    · right; rw [h1]; exact ⟨rfl, rfl⟩
  · rw [finalPart_of_no_guard env l (Or.inr hid)]
    exact Or.inl hid

/-- Witness for C4: a web page requested with `DontSendToDefaultHTMLPart` goes to
`khtmlpart`. -/
theorem decideEmbedOrSave_avoids_webenginepart_witness :
    (UrlLoader.decideEmbedOrSave sampleEnv
        (sampleLoader { scheme := "https", path := "/doc.html" } "text/html"
          dontSendRequest)).2.m_part.pluginId = "khtmlpart" ∧
    ((UrlLoader.decideEmbedOrSave sampleEnv
        (sampleLoader { scheme := "https", path := "/doc.html" } "text/html"
          dontSendRequest)).2.m_part.pluginId ≠ "webenginepart" ∨
      ((UrlLoader.decideEmbedOrSave sampleEnv
        (sampleLoader { scheme := "https", path := "/doc.html" } "text/html"
          dontSendRequest)).2.m_part.isValid = false ∧
       (UrlLoader.decideEmbedOrSave sampleEnv
        (sampleLoader { scheme := "https", path := "/doc.html" } "text/html"
          dontSendRequest)).1 = false)) :=
  ⟨by decide,
   (decideEmbedOrSave_avoids_webenginepart sampleEnv
      (sampleLoader { scheme := "https", path := "/doc.html" } "text/html" dontSendRequest)
      (by decide)).1⟩

theorem selectedPart_konq (env : Env) (l : UrlLoader) (hk : hasKonqScheme l.m_url = true) :
    selectedPart env l = env.findPartById "webenginepart" := by
  simp [selectedPart, hk]

theorem selectedPart_by_name (env : Env) (l : UrlLoader)
    (hk : hasKonqScheme l.m_url = false) (hview : viewPartUsed l = false) :
    selectedPart env l =
      if l.m_request.serviceName.isEmpty then preferredPart env l.m_mimeType
      else env.findPartById l.m_request.serviceName := by
  unfold selectedPart viewPartUsed at *
  simp only [hk, Bool.false_eq_true, if_false]
  cases hv : l.m_view with
  | none => cases l.m_request.serviceName.isEmpty <;> simp
  | some v =>
    rw [hv] at hview
    simp only at hview
    simp only [hview, Bool.false_eq_true, if_false]
    cases l.m_request.serviceName.isEmpty <;> simp

/-- C5, as stated, fails: for the URL `konq:blank` requested with `DontSendToDefaultHTMLPart`,
`decideEmbedOrSave` ends with `khtmlpart`, not with `findPartById("webenginepart")`. -/
theorem konq_url_part_counterexample :
    hasKonqScheme { scheme := "konq", path := "blank" } = true ∧
    (UrlLoader.decideEmbedOrSave sampleEnv
      (sampleLoader { scheme := "konq", path := "blank" } "text/html" dontSendRequest)).2.m_part
      ≠ sampleEnv.findPartById "webenginepart" ∧
    (UrlLoader.decideEmbedOrSave sampleEnv
      (sampleLoader { scheme := "konq", path := "blank" } "text/html" dontSendRequest)).2.m_part
      = khtmlPart := by
  decide

/-- C5, amended. For a URL with the konq scheme `decideEmbedOrSave` ends with
`findPartById("webenginepart")`, whatever the view, the request's service name and the
preferred part are, and returns whether that part is valid, unless
`m_dontPassToWebEnginePart` is set and that part's plugin id is `webenginepart`; then it
ends with the first part for the MIME type whose plugin id is not `webenginepart` and
returns whether that one is valid, or, when there is none, ends with an invalid part and
returns false. -/
theorem decideEmbedOrSave_konq_url (env : Env) (l : UrlLoader)
    (hk : hasKonqScheme l.m_url = true) :
    ((l.m_dontPassToWebEnginePart = false ∨
        (env.findPartById "webenginepart").pluginId ≠ "webenginepart") →
      (UrlLoader.decideEmbedOrSave env l).2.m_part = env.findPartById "webenginepart" ∧
      (UrlLoader.decideEmbedOrSave env l).1 = (env.findPartById "webenginepart").isValid) ∧
    (l.m_dontPassToWebEnginePart = true →
      (env.findPartById "webenginepart").pluginId = "webenginepart" →
      (∀ partToUse,
        (env.partsForMimeType l.m_mimeType).find? (fun md => md.pluginId != "webenginepart")
          = some partToUse →
        (UrlLoader.decideEmbedOrSave env l).2.m_part = partToUse ∧
        partToUse.pluginId ≠ "webenginepart" ∧
        (UrlLoader.decideEmbedOrSave env l).1 = partToUse.isValid) ∧
      ((env.partsForMimeType l.m_mimeType).find? (fun md => md.pluginId != "webenginepart")
          = none →
        (UrlLoader.decideEmbedOrSave env l).2.m_part.isValid = false ∧
        (UrlLoader.decideEmbedOrSave env l).1 = false)) := by
  rw [decideEmbedOrSave_eq, embedOrSaveWith_part, embedOrSaveWith_ret]
  have hs := selectedPart_konq env l hk
  constructor
  · intro h
    rw [finalPart_of_no_guard env l (by rw [hs]; exact h), hs]
    exact ⟨rfl, rfl⟩
  · intro h hid
    rw [finalPart_of_guard env l h (by rw [hs]; exact hid)]
    constructor
    · intro partToUse hf
      have hne : partToUse.pluginId ≠ "webenginepart" := by
        have := List.find?_some hf
        simpa using this
      simp [firstOtherPart, hf, hne]
    · intro hf
      simp [firstOtherPart, hf, KPluginMetaData.null]

/-- Witness for C5, amended. For `konq:blank` shown in a view of `khtmlpart` that supports
`text/html`, with the request naming `khtmlpart` and `khtmlpart` the preferred part,
`decideEmbedOrSave` still ends with `webenginepart` and returns true; and for `konq:blank`
requested with `DontSendToDefaultHTMLPart` when `webenginepart` is the only part, it ends
with an invalid part and returns false. -/
theorem decideEmbedOrSave_konq_url_witness :
    (viewPartUsed konqViewLoader = true ∧
      konqViewLoader.m_request.serviceName = "khtmlpart" ∧
      preferredPart khtmlFirstEnv konqViewLoader.m_mimeType = khtmlPart) ∧
    ((UrlLoader.decideEmbedOrSave khtmlFirstEnv konqViewLoader).2.m_part = webEnginePart ∧
      (UrlLoader.decideEmbedOrSave khtmlFirstEnv konqViewLoader).1 = true) ∧
    ((UrlLoader.decideEmbedOrSave webEngineOnlyEnv
        (sampleLoader { scheme := "konq", path := "blank" } "text/html"
          dontSendRequest)).2.m_part.isValid = false ∧
      (UrlLoader.decideEmbedOrSave webEngineOnlyEnv
        (sampleLoader { scheme := "konq", path := "blank" } "text/html"
          dontSendRequest)).1 = false) :=
  ⟨by decide,
   (decideEmbedOrSave_konq_url khtmlFirstEnv konqViewLoader (by decide)).1
     (Or.inl (by decide)),
   ((decideEmbedOrSave_konq_url webEngineOnlyEnv
      (sampleLoader { scheme := "konq", path := "blank" } "text/html" dontSendRequest)
      (by decide)).2 (by decide) (by decide)).2 (by decide)⟩

theorem foldl_dirs_ne_nil (f : QUrl → QUrl) (urls : List QUrl) (acc : List QUrl)
    (h : acc ≠ [] ∨ urls ≠ []) :
    urls.foldl (fun (dirs : List QUrl) url =>
      if !dirs.contains (f url) then dirs ++ [f url] else dirs) acc ≠ [] := by
  induction urls generalizing acc with
  | nil => simpa using h
  | cons u us ih =>
    simp only [List.foldl_cons]
    apply ih
    left
    cases hc : acc.contains (f u) with
    | true =>
      simp only [Bool.not_true, Bool.false_eq_true, if_false]
      intro hnil
      rw [hnil] at hc
      simp at hc
    | false =>
      simp only [Bool.not_false, if_true]
      simp

theorem createWindowsForUrlArguments_serviceName (app : AppEnv) (parser : QCommandLineParser)
    (urlargs0 : OpenUrlArguments) (req0 : KonqOpenURLRequest) (args : List String)
    (workingDirectory : String) (w : WindowCreation)
    (h : createWindowsForUrlArguments app parser urlargs0 req0 args workingDirectory = some w) :
    w.req.serviceName = parser.value "part" := by
  unfold createWindowsForUrlArguments at h
  simp only at h
  split at h
  · exact absurd h (by simp)
  · split at h <;>
    · simp only [Option.some.injEq] at h
      rw [← h]

theorem createWindowsForUrlArguments_some (app : AppEnv) (parser : QCommandLineParser)
    (urlargs0 : OpenUrlArguments) (req0 : KonqOpenURLRequest) (args : List String)
    (workingDirectory : String) (hargs : args ≠ []) :
    ∃ w, createWindowsForUrlArguments app parser urlargs0 req0 args workingDirectory
      = some w := by
  unfold createWindowsForUrlArguments
  simp only
  split
  · rename_i hnil
    exfalso
    by_cases hs : parser.isSet "select" = true
    · simp only [hs, if_true] at hnil
      exact foldl_dirs_ne_nil app.removeFilename _ [] (Or.inr (by simpa using hargs)) hnil
    · simp only [hs, Bool.false_eq_true, if_false] at hnil
      exact hargs (by simpa using hnil)
  · split <;> exact ⟨_, rfl⟩

/-- C8, as stated, fails: for `https:/doc.html` requested with `DontSendToDefaultHTMLPart` and no
view, a request naming `webenginepart` does not end with `findPartById("webenginepart")`, and
a request naming no part does not end with the preferred part for `text/html`; both end
with `khtmlpart`. -/
theorem service_name_part_counterexample :
    hasKonqScheme { scheme := "https", path := "/doc.html" } = false ∧
    viewPartUsed
      (sampleLoader { scheme := "https", path := "/doc.html" } "text/html" dontSendNamedRequest)
      = false ∧
    dontSendNamedRequest.serviceName.isEmpty = false ∧
    (UrlLoader.decideEmbedOrSave sampleEnv
      (sampleLoader { scheme := "https", path := "/doc.html" } "text/html"
        dontSendNamedRequest)).2.m_part
      ≠ sampleEnv.findPartById dontSendNamedRequest.serviceName ∧
    dontSendRequest.serviceName.isEmpty = true ∧
    (UrlLoader.decideEmbedOrSave sampleEnv
      (sampleLoader { scheme := "https", path := "/doc.html" } "text/html"
        dontSendRequest)).2.m_part
      ≠ preferredPart sampleEnv "text/html" := by
  decide

/-- C8, amended. `createWindowsForUrlArguments` hands `createNewWindow` a request whose service
name is the value of `--part`; and in `decideEmbedOrSave`, for a URL without the konq scheme
for which the view's part is not used, a non-empty service name makes `m_part` the part
`findPartById` returns for it and an empty one makes `m_part` the preferred part for the
MIME type, in both cases unless `m_dontPassToWebEnginePart` is set and the plugin id of that
part is `webenginepart`. -/
theorem decideEmbedOrSave_service_name (env : Env) (l : UrlLoader)
    (hk : hasKonqScheme l.m_url = false) (hview : viewPartUsed l = false) :
    (∀ (app : AppEnv) (parser : QCommandLineParser) (urlargs0 : OpenUrlArguments)
        (req0 : KonqOpenURLRequest) (args : List String) (workingDirectory : String),
      (args ≠ [] → ∃ w,
        createWindowsForUrlArguments app parser urlargs0 req0 args workingDirectory = some w) ∧
      (∀ w, createWindowsForUrlArguments app parser urlargs0 req0 args workingDirectory
          = some w → w.req.serviceName = parser.value "part")) ∧
    (l.m_request.serviceName.isEmpty = false →
      (l.m_dontPassToWebEnginePart = false ∨
        (env.findPartById l.m_request.serviceName).pluginId ≠ "webenginepart") →
      (UrlLoader.decideEmbedOrSave env l).2.m_part = env.findPartById l.m_request.serviceName) ∧
    (l.m_request.serviceName.isEmpty = true →
      (l.m_dontPassToWebEnginePart = false ∨
        (preferredPart env l.m_mimeType).pluginId ≠ "webenginepart") →
      (UrlLoader.decideEmbedOrSave env l).2.m_part = preferredPart env l.m_mimeType) := by
  refine ⟨fun app parser urlargs0 req0 args wd =>
    ⟨createWindowsForUrlArguments_some app parser urlargs0 req0 args wd,
     createWindowsForUrlArguments_serviceName app parser urlargs0 req0 args wd⟩, ?_, ?_⟩
  · intro he hg
    have hs := selectedPart_by_name env l hk hview
    simp only [he, Bool.false_eq_true, if_false] at hs
    rw [decideEmbedOrSave_eq, embedOrSaveWith_part,
      finalPart_of_no_guard env l (by rw [hs]; exact hg), hs]
  · intro he hg
    have hs := selectedPart_by_name env l hk hview
    simp only [he, if_true] at hs
    rw [decideEmbedOrSave_eq, embedOrSaveWith_part,
      finalPart_of_no_guard env l (by rw [hs]; exact hg), hs]

/-- Witness for C8, amended: `--part khtmlpart https:/doc.html`. -/
theorem decideEmbedOrSave_service_name_witness :
    (∀ w, createWindowsForUrlArguments sampleApp partParser emptyRequest.args emptyRequest
        ["/doc.html"] "/home/u" = some w → w.req.serviceName = "khtmlpart") ∧
    (UrlLoader.decideEmbedOrSave sampleEnv
      (sampleLoader { scheme := "https", path := "/doc.html" } "text/html"
        { emptyRequest with serviceName := "khtmlpart" })).2.m_part = khtmlPart :=
  have h := decideEmbedOrSave_service_name sampleEnv
    (sampleLoader { scheme := "https", path := "/doc.html" } "text/html"
      { emptyRequest with serviceName := "khtmlpart" })
    (by decide) (by decide)
  ⟨(h.1 sampleApp partParser emptyRequest.args emptyRequest ["/doc.html"] "/home/u").2,
   h.2.1 (by decide) (Or.inl (by decide))⟩

/-- C6 fails on the code when `application/xml` is declared more than once: `removeOne`
drops a single occurrence, so with `kfmclient_html` and `kfmclient_war` both declaring it
`embedWithoutAskingToSave("application/xml")` is true. -/
theorem embedWithoutAskingToSave_xml_declared_twice :
    (declaredMimeTypes xmlTwiceEnv).count "application/xml" = 2 ∧
    UrlLoader.embedWithoutAskingToSave xmlTwiceEnv [] "application/xml" =
      (true, ["text/html", "application/xhtml+xml", "inode/directory",
              "application/x-webarchive", "application/xml"]) := by
  decide

/-- When `application/xml` is declared at most once by the three parts, the first call of
`embedWithoutAskingToSave("application/xml")` answers false. -/
theorem embedWithoutAskingToSave_xml_declared_once (env : Env)
    (h : (declaredMimeTypes env).count "application/xml" ≤ 1) :
    (UrlLoader.embedWithoutAskingToSave env [] "application/xml").1 = false := by
  have hc : ((declaredMimeTypes env).erase "application/xml").count "application/xml" = 0 := by
    rw [List.count_erase_self]; omega
  have hm : "application/xml" ∉ (declaredMimeTypes env).erase "application/xml" :=
    List.count_eq_zero.mp hc
  simp only [UrlLoader.embedWithoutAskingToSave, List.isEmpty_nil, if_true, List.foldl_cons,
    List.foldl_nil, List.nil_append]
  simpa [declaredMimeTypes] using hm

/-- Evaluation of `embedWithoutAskingToSave_xml_declared_once` on an environment without the
three parts. -/
theorem embedWithoutAskingToSave_xml_declared_once_witness :
    (UrlLoader.embedWithoutAskingToSave sampleEnv [] "application/xml").1 = false :=
  embedWithoutAskingToSave_xml_declared_once sampleEnv (by decide)

theorem endsWithChar_append_slash (s : String) : endsWithChar (s ++ "/") '/' = true := by
  simp [endsWithChar]

/-- C7. Archive redirection: for a local file whose non-empty MIME type has an archive protocol
and is configured for embedding, `detectSettingsForLocalFiles` sets the scheme to that
protocol; for `application/x-webarchive` it appends `/index.html` to the path and sets the
MIME type to `text/html`; otherwise, when the output type of the redirected URL is a file
system, the path ends with a slash (appended only when it was missing) and the MIME type
becomes `inode/directory`; otherwise the MIME type is cleared. -/
theorem detectSettingsForLocalFiles_archive (env : Env) (l : UrlLoader)
    (hlocal : l.m_url.isLocalFile = true)
    (hmime : l.m_mimeType.isEmpty = false)
    (hprot : (env.protocolForArchiveMimetype l.m_mimeType).isEmpty = false)
    (hembed : env.shouldEmbed l.m_mimeType = true) :
    (UrlLoader.detectSettingsForLocalFiles env l).m_url.scheme
      = env.protocolForArchiveMimetype l.m_mimeType ∧
    (l.m_mimeType = "application/x-webarchive" →
      (UrlLoader.detectSettingsForLocalFiles env l).m_url.path = l.m_url.path ++ "/index.html" ∧
      (UrlLoader.detectSettingsForLocalFiles env l).m_mimeType = "text/html") ∧
    (l.m_mimeType ≠ "application/x-webarchive" →
      env.outputType (l.m_url.setScheme (env.protocolForArchiveMimetype l.m_mimeType))
        = ProtocolType.T_FILESYSTEM →
      endsWithChar (UrlLoader.detectSettingsForLocalFiles env l).m_url.path '/' = true ∧
      (UrlLoader.detectSettingsForLocalFiles env l).m_url.path =
        (if endsWithChar l.m_url.path '/' then l.m_url.path else l.m_url.path ++ "/") ∧
      (UrlLoader.detectSettingsForLocalFiles env l).m_mimeType = "inode/directory") ∧
    (l.m_mimeType ≠ "application/x-webarchive" →
      env.outputType (l.m_url.setScheme (env.protocolForArchiveMimetype l.m_mimeType))
        ≠ ProtocolType.T_FILESYSTEM →
      (UrlLoader.detectSettingsForLocalFiles env l).m_url.path = l.m_url.path ∧
      (UrlLoader.detectSettingsForLocalFiles env l).m_mimeType = "") := by
  unfold UrlLoader.detectSettingsForLocalFiles
  simp only [hlocal, hmime, hprot, hembed, Bool.not_true, Bool.not_false, Bool.false_eq_true,
    if_false, if_true, Bool.and_self]
  simp only [QUrl.setScheme, QUrl.setPath]
  by_cases hw : l.m_mimeType = "application/x-webarchive"
  · simp [hw]
  · by_cases ho : env.outputType
        { scheme := env.protocolForArchiveMimetype l.m_mimeType, path := l.m_url.path }
        = ProtocolType.T_FILESYSTEM
    · cases he : endsWithChar l.m_url.path '/' with
      | true => simp [hw, ho, he]
      | false => simp [hw, ho, he, endsWithChar_append_slash]
    · simp [hw, ho]

/-- Witness for C7: the local file `/home/u/a.zip` is redirected to `zip:/home/u/a.zip/`. -/
theorem detectSettingsForLocalFiles_archive_witness :
    (UrlLoader.detectSettingsForLocalFiles zipEnv
      (sampleLoader { scheme := "file", path := "/home/u/a.zip" } "application/zip"
        emptyRequest)).m_url.scheme = "zip" ∧
    (UrlLoader.detectSettingsForLocalFiles zipEnv
      (sampleLoader { scheme := "file", path := "/home/u/a.zip" } "application/zip"
        emptyRequest)).m_url.path = "/home/u/a.zip/" ∧
    (UrlLoader.detectSettingsForLocalFiles zipEnv
      (sampleLoader { scheme := "file", path := "/home/u/a.zip" } "application/zip"
        emptyRequest)).m_mimeType = "inode/directory" :=
  have h := detectSettingsForLocalFiles_archive zipEnv
    (sampleLoader { scheme := "file", path := "/home/u/a.zip" } "application/zip" emptyRequest)
    (by decide) (by decide) (by decide) (by decide)
  have h3 := h.2.2.1 (by decide) (by decide)
  ⟨h.1, h3.2.1, h3.2.2⟩

theorem decideOpenOrSave_trace (env : Env) (l : UrlLoader) :
    (UrlLoader.decideOpenOrSave env l).trace = l.trace ++ [Event.enterDecideOpenOrSave] ∨
    (UrlLoader.decideOpenOrSave env l).trace =
      l.trace ++ [Event.enterDecideOpenOrSave, Event.shownOpenOrSave] := by
  unfold UrlLoader.decideOpenOrSave
  simp only
  split <;> split <;> simp [UrlLoader.askSaveOrOpen]

theorem performAction_not_embed (env : Env) (fuel : Nat) (l : UrlLoader)
    (h : l.m_action ≠ OpenUrlAction.Embed) :
    ∃ r new, UrlLoader.performAction env (fuel + 1) l = some r ∧
      r.trace = l.trace ++ new ∧ r.m_action = l.m_action ∧
      new.count Event.enterEmbed = 0 ∧ new.count Event.enterDecideOpenOrSave = 0 := by
  unfold UrlLoader.performAction
  cases ha : l.m_action with
  | Embed => exact absurd ha h
  | Open =>
    simp only [UrlLoader.open]
    split
    · exact ⟨_, [Event.enterOpen], rfl, rfl, ha, by decide, by decide⟩
    · exact ⟨_, [Event.enterOpen, Event.launchApplication], rfl, by simp, ha,
        by decide, by decide⟩
  | Execute =>
    simp only [UrlLoader.execute]
    split
    · exact ⟨_, [Event.enterExecute], rfl, rfl, ha, by decide, by decide⟩
    · exact ⟨_, [Event.enterExecute], rfl, rfl, ha, by decide, by decide⟩
  | Save => exact ⟨_, [Event.enterSave], rfl, rfl, ha, by decide, by decide⟩
  | DoNothing => exact ⟨_, [Event.enterDone], rfl, rfl, ha, by decide, by decide⟩
  | UnknwonAction => exact ⟨_, [Event.enterDone], rfl, rfl, ha, by decide, by decide⟩

/-- Evaluation of a failing embed: `openView` fails, the open-or-save dialog is dismissed, and
the run ends in `done` after one `embed` and one `decideOpenOrSave`. -/
theorem performAction_failed_embed_run :
    (UrlLoader.performAction sampleEnv 2
      { sampleLoader { scheme := "https", path := "/doc.html" } "text/html" emptyRequest with
        m_action := OpenUrlAction.Embed }).map (fun r => (r.m_action, r.trace)) =
    some (OpenUrlAction.DoNothing,
      [Event.enterEmbed, Event.enterDecideOpenOrSave, Event.shownOpenOrSave, Event.enterDone]) := by
  decide

/-- C9. `performAction` terminates: two levels of the `performAction`/`embed` recursion always
suffice, and any larger bound gives the same result. Along the run `embed` is entered at most
once (exactly when the action is Embed) and `decideOpenOrSave` at most once; when `embed`
fails, `decideOpenOrSave` runs exactly once and the action it leaves, which is the final
one, is not Embed. -/
theorem performAction_terminates (env : Env) (l : UrlLoader) :
    ∃ r new,
      (∀ fuel, 2 ≤ fuel → UrlLoader.performAction env fuel l = some r) ∧
      r.trace = l.trace ++ new ∧
      new.count Event.enterEmbed ≤ 1 ∧
      (new.count Event.enterEmbed = 1 ↔ l.m_action = OpenUrlAction.Embed) ∧
      new.count Event.enterDecideOpenOrSave ≤ 1 ∧
      (embedFails env l = true →
        new.count Event.enterDecideOpenOrSave = 1 ∧ r.m_action ≠ OpenUrlAction.Embed ∧
        r.m_action = (UrlLoader.decideOpenOrSave env
          { l with trace := l.trace ++ [Event.enterEmbed] }).m_action) ∧
      (embedFails env l = false → new.count Event.enterDecideOpenOrSave = 0) := by
  by_cases ha : l.m_action = OpenUrlAction.Embed
  · cases ho : env.openView (l.trace ++ [Event.enterEmbed]) l.m_mimeType l.m_url l.m_view
        l.m_request with
    | true =>
      refine ⟨UrlLoader.done { l with trace := l.trace ++ [Event.enterEmbed] },
        [Event.enterEmbed, Event.enterDone], ?_, by simp [UrlLoader.done], by decide,
        by simp [ha], by decide, by simp [embedFails, ha, ho], fun _ => by decide⟩
      intro fuel hf
      obtain ⟨n, rfl⟩ : ∃ n, fuel = n + 2 := ⟨fuel - 2, by omega⟩
      simp [UrlLoader.performAction, UrlLoader.embed, ha, ho]
    | false =>
      have hne := decideOpenOrSave_ne_embed env { l with trace := l.trace ++ [Event.enterEmbed] }
      have key : ∀ n, ∃ r new,
          UrlLoader.performAction env (n + 1) (UrlLoader.decideOpenOrSave env
            { l with trace := l.trace ++ [Event.enterEmbed] }) = some r ∧ _ :=
        fun n => performAction_not_embed env n _ hne
      obtain ⟨r, new, hr, htr, hact, hc1, hc2⟩ := key 0
      have hfuel : ∀ fuel, 2 ≤ fuel → UrlLoader.performAction env fuel l = some r := by
        intro fuel hf
        obtain ⟨n, rfl⟩ : ∃ n, fuel = n + 2 := ⟨fuel - 2, by omega⟩
        obtain ⟨r2, new2, hr2, -⟩ := key n
        have hsame : UrlLoader.performAction env (n + 1) (UrlLoader.decideOpenOrSave env
            { l with trace := l.trace ++ [Event.enterEmbed] }) =
            UrlLoader.performAction env (0 + 1) (UrlLoader.decideOpenOrSave env
            { l with trace := l.trace ++ [Event.enterEmbed] }) := by
          cases hx : (UrlLoader.decideOpenOrSave env
            { l with trace := l.trace ++ [Event.enterEmbed] }).m_action <;>
            simp [UrlLoader.performAction, hx] 
          exact absurd hx hne
        rw [← hr, ← hsame]
        simp [UrlLoader.performAction, UrlLoader.embed, ha, ho]
      rcases decideOpenOrSave_trace env { l with trace := l.trace ++ [Event.enterEmbed] }
        with ht | ht
      · refine ⟨r, [Event.enterEmbed, Event.enterDecideOpenOrSave] ++ new, hfuel, ?_, ?_, ?_, ?_,
          ?_, ?_⟩
        · rw [htr, ht]; simp
        · simp [List.count_cons, hc1]
        · simp [List.count_cons, hc1, ha]
        · simp [List.count_cons, hc2]
        · intro _
          exact ⟨by simp [List.count_cons, hc2], by rw [hact]; exact hne, hact⟩
        · intro hf; simp [embedFails, ha, ho] at hf
      · refine ⟨r, [Event.enterEmbed, Event.enterDecideOpenOrSave, Event.shownOpenOrSave] ++ new,
          hfuel, ?_, ?_, ?_, ?_, ?_, ?_⟩
        · rw [htr, ht]; simp
        · simp [List.count_cons, hc1]
        · simp [List.count_cons, hc1, ha]
        · simp [List.count_cons, hc2]
        · intro _
          exact ⟨by simp [List.count_cons, hc2], by rw [hact]; exact hne, hact⟩
        · intro hf; simp [embedFails, ha, ho] at hf
  · obtain ⟨r, new, hr, htr, -, hc1, hc2⟩ := performAction_not_embed env 0 l ha
    refine ⟨r, new, ?_, htr, by omega, by simp [hc1, ha], by omega,
      by simp [embedFails, ha], fun _ => hc2⟩
    intro fuel hf
    obtain ⟨n, rfl⟩ : ∃ n, fuel = n + 2 := ⟨fuel - 2, by omega⟩
    rw [← hr]
    cases hx : l.m_action <;> simp [UrlLoader.performAction, hx]
    exact absurd hx ha

end Konq
